import Mathlib

/-!
Verification of the pykafka `KafkaClient` facade (src/pykafka/client.py)
and of the cluster metadata / broker-connection core it fronts, as
described by the repository specification.  The facade is embedded
directly from `client.py`; components that live outside the excerpted
source (the `Cluster` coordinator internals in `pykafka/cluster.py`) are
modelled from the specification, each such definition carrying a doc
comment that says so.
-/

namespace Pykafka

/-- Arguments of `KafkaClient.__init__` (client.py lines 41-47).  Python
keyword arguments become record fields; `zookeeper_hosts=None` becomes an
`Option`. -/
structure InitArgs where
  hosts : String
  zookeeper_hosts : Option String
  socket_timeout_ms : Nat
  offsets_channel_socket_timeout_ms : Nat
  exclude_internal_topics : Bool
  source_address : String
deriving DecidableEq, Repr

/-- The default argument values of `KafkaClient.__init__` exactly as they
appear in client.py lines 41-47: `hosts='127.0.0.1:9092'`,
`zookeeper_hosts=None`, `socket_timeout_ms=30 * 1000`,
`offsets_channel_socket_timeout_ms=10 * 1000`,
`exclude_internal_topics=True`, `source_address=''`. -/
def defaultInitArgs : InitArgs :=
  { hosts := "127.0.0.1:9092"
    zookeeper_hosts := none
    socket_timeout_ms := 30 * 1000
    offsets_channel_socket_timeout_ms := 10 * 1000
    exclude_internal_topics := true
    source_address := "" }

/-- One broker handle of the registry: identity (numeric id, host, port)
plus a connection token identifying its current Connection object, so
that "connections left untouched" is expressible as token preservation. -/
structure Broker where
  id : Nat
  host : String
  port : Nat
  connToken : Nat
deriving DecidableEq, Repr

/-- Topic registry content: topic name to list of (partition id, leader
broker id) pairs. -/
def TopicMap : Type := List (String × List (Nat × Nat))

instance : DecidableEq TopicMap := by
  unfold TopicMap
  infer_instance

/-- A store of registry cells addressed by natural numbers, used to model
Python object references: `self.brokers = self.cluster.brokers` copies an
address, not the registry behind it. -/
structure Heap where
  next : Nat
  brokerCells : Nat → List Broker
  topicCells : Nat → TopicMap

/-- Write a broker registry value through an address. -/
def Heap.writeBrokers (h : Heap) (addr : Nat) (v : List Broker) : Heap :=
  { h with brokerCells := fun a => if a = addr then v else h.brokerCells a }

/-- Write a topic registry value through an address. -/
def Heap.writeTopics (h : Heap) (addr : Nat) (v : TopicMap) : Heap :=
  { h with topicCells := fun a => if a = addr then v else h.topicCells a }

/-- The configuration with which client.py lines 76-84 constructs the
`Cluster` object: the keyword arguments of that call, in source order. -/
structure ClusterConfig where
  hosts : String
  socket_timeout_ms : Nat
  offsets_channel_socket_timeout_ms : Nat
  exclude_internal_topics : Bool
  source_address : String
  zookeeper_hosts : Option String
deriving DecidableEq, Repr

/-- A constructed `Cluster` object: its configuration plus the addresses
of the two registries (`brokers` and `topics` attributes) it owns. -/
structure ClusterObj where
  config : ClusterConfig
  brokersRef : Nat
  topicsRef : Nat
deriving DecidableEq, Repr

/-- Construction of a `Cluster`: allocates fresh broker and topic
registry cells (initially empty) and records the configuration it was
called with.  The coordinator internals live in pykafka/cluster.py,
outside the excerpted source; only what client.py observes is modelled
here. -/
def Cluster.construct (cfg : ClusterConfig) (h : Heap) : ClusterObj × Heap :=
  (⟨cfg, h.next, h.next + 1⟩,
    { next := h.next + 2
      brokerCells := fun a => if a = h.next then [] else h.brokerCells a
      topicCells := fun a => if a = h.next + 1 then ([] : TopicMap) else h.topicCells a })

/-- The `KafkaClient` object state after `__init__` (client.py lines
71-86): the four private attributes, the constructed cluster, and the
`brokers` / `topics` attributes, which are registry addresses copied
from the cluster. -/
structure KafkaClient where
  _seed_hosts : String
  _source_address : String
  _socket_timeout_ms : Nat
  _offsets_channel_socket_timeout_ms : Nat
  cluster : ClusterObj
  brokersRef : Nat
  topicsRef : Nat
deriving DecidableEq, Repr

/-- `KafkaClient.__init__` (client.py lines 71-86), line by line:
`self._seed_hosts = zookeeper_hosts if zookeeper_hosts is not None else
hosts`; the private copies of the timeouts and source address; the single
`Cluster(...)` construction with keyword arguments taken verbatim from
the parameters; `self.brokers = self.cluster.brokers` and `self.topics =
self.cluster.topics`.  Besides the new object and heap it returns the
list of `Cluster` objects constructed during the call. -/
def KafkaClient.init (a : InitArgs) (h : Heap) :
    KafkaClient × Heap × List ClusterObj :=
  let cfg : ClusterConfig :=
    { hosts := a.hosts
      socket_timeout_ms := a.socket_timeout_ms
      offsets_channel_socket_timeout_ms := a.offsets_channel_socket_timeout_ms
      exclude_internal_topics := a.exclude_internal_topics
      source_address := a.source_address
      zookeeper_hosts := a.zookeeper_hosts }
  let (c, h') := Cluster.construct cfg h
  (⟨(a.zookeeper_hosts.getD a.hosts), a.source_address, a.socket_timeout_ms,
      a.offsets_channel_socket_timeout_ms, c, c.brokersRef, c.topicsRef⟩,
    h', [c])

/-- Observable actions of a `KafkaClient` method call. -/
inductive Action where
  | clusterUpdate (topicArg : Option (List String))
deriving DecidableEq, Repr

/-- `KafkaClient.update_cluster` (client.py lines 96-102): its whole body
is the single statement `self.cluster.update()`, so its trace of actions
is one cluster update carrying no topic argument. -/
def KafkaClient.update_cluster : List Action :=
  [Action.clusterUpdate none]

/-- A broker entry of a metadata response: (numeric id, host, port). -/
abbrev MetaBroker : Type := Nat × String × Nat

/-- Modelled from the spec: a metadata response snapshot — the broker
list and, per returned topic, the (partition id, leader broker id)
pairs.  The wire codec is out of scope and treated as opaque. -/
structure Metadata where
  brokers : List MetaBroker
  topics : List (String × List (Nat × Nat))
deriving DecidableEq, Repr

/-- Whether the registry currently tracks a broker with the given id. -/
def tracked (reg : List Broker) (i : Nat) : Bool :=
  reg.any (fun b => b.id == i)

/-- Handles newly created for brokers first seen in a metadata response,
each with a fresh connection token (unconnected until first use). -/
def mkNew (fresh : Nat) : List MetaBroker → List Broker
  | [] => []
  | n :: rest => ⟨n.1, n.2.1, n.2.2, fresh⟩ :: mkNew (fresh + 1) rest

/-- Modelled from the spec (Broker Registry `reconcile`, pykafka
cluster.py is outside the excerpted source): brokers absent from the new
list are closed and removed, brokers present in both are left untouched
(same handle, same connection token), brokers new to the list get fresh
unconnected handles. -/
def reconcile (reg : List Broker) (new : List MetaBroker) (fresh : Nat) :
    List Broker :=
  reg.filter (fun b => new.any (fun n => n.1 == b.id)) ++
    mkNew fresh (new.filter (fun n => !(tracked reg n.1)))

/-- Modelled from the spec: the Cluster Coordinator state — the Broker
Registry, the Topic Registry, and the original seed host list. -/
structure ClusterState where
  brokers : List Broker
  topics : List (String × List (Nat × Nat))
  seedHosts : List String
deriving DecidableEq, Repr

/-- Errors surfaced by the modelled coordinator. -/
inductive ClusterError where
  | clusterUnreachable
deriving DecidableEq, Repr

/-- The `host:port` address of a tracked broker. -/
def brokerAddr (b : Broker) : String :=
  b.host ++ ":" ++ toString b.port

/-- Modelled from the spec: the address candidates a refresh walks —
every currently known broker, falling back to the original seed list. -/
def candidates (st : ClusterState) : List String :=
  st.brokers.map brokerAddr ++ st.seedHosts

/-- Walk the candidate list in order, returning the first metadata
response obtained; `none` when every candidate fails.  The network is a
function from address to optional response. -/
def firstSuccess (net : String → Option Metadata) :
    List String → Option Metadata
  | [] => none
  | a :: rest =>
    match net a with
    | some m => some m
    | none => firstSuccess net rest

/-- A connection token strictly larger than every token in use, so new
handles never alias an existing connection. -/
def freshToken (st : ClusterState) : Nat :=
  (st.brokers.map (fun b => b.connToken)).foldr max 0 + 1

/-- Modelled from the spec: applying a successful metadata response —
the Broker Registry is reconciled and the Topic Registry's partition
maps are replaced wholesale with the returned topics. -/
def applyMetadata (m : Metadata) (st : ClusterState) : ClusterState :=
  { brokers := reconcile st.brokers m.brokers (freshToken st)
    topics := m.topics
    seedHosts := st.seedHosts }

/-- Modelled from the spec (Cluster Coordinator `update`): tries every
known broker and then the seeds; on success applies the response; on
total failure returns `ClusterUnreachable` with the state untouched. -/
def Cluster.update (net : String → Option Metadata) (st : ClusterState) :
    ClusterState × Option ClusterError :=
  match firstSuccess net (candidates st) with
  | none => (st, some ClusterError.clusterUnreachable)
  | some m => (applyMetadata m st, none)

/-- Error surfaced by the modelled leader lookup. -/
inductive LeaderError where
  | partitionNotFound
deriving DecidableEq, Repr

/-- Look up the broker handle currently leading a topic-partition:
follow topic name to partition map, partition id to leader broker id,
and leader broker id into the Broker Registry; `none` on any gap. -/
def lookupLeader (st : ClusterState) (t : String) (p : Nat) :
    Option Broker :=
  match st.topics.find? (fun e => e.1 == t) with
  | none => none
  | some e =>
    match e.2.find? (fun pr => pr.1 == p) with
    | none => none
    | some pr => st.brokers.find? (fun b => b.id == pr.2)

/-- Modelled from the spec (Cluster Coordinator `leader_for`): look up
the current leader; on any topology gap trigger `update` once, retry the
lookup against the refreshed state, and fail with `PartitionNotFound` if
still absent.  The third component counts the `update` calls made. -/
def leader_for (net : String → Option Metadata) (st : ClusterState)
    (t : String) (p : Nat) :
    Except LeaderError Broker × ClusterState × Nat :=
  match lookupLeader st t p with
  | some b => (Except.ok b, st, 0)
  | none =>
    let st' := (Cluster.update net st).1
    match lookupLeader st' t p with
    | some b => (Except.ok b, st', 1)
    | none => (Except.error LeaderError.partitionNotFound, st', 1)

/-- Modelled from the spec: the in-flight-refresh guard of the Cluster
Coordinator, abstracted to what its coalescing contract observes —
whether a refresh is in flight, how many callers are blocked on it, how
many outbound metadata requests have been issued, the generation number
of the current snapshot, and the snapshot generation each completed
caller observed, in completion order. -/
structure GuardState where
  inFlight : Bool
  pending : Nat
  requestsIssued : Nat
  snapshotGen : Nat
  delivered : List Nat
deriving DecidableEq, Repr

/-- Events at the refresh guard: a caller invokes `update`, or the
in-flight refresh completes. -/
inductive GuardEvent where
  | call
  | complete
deriving DecidableEq, Repr

/-- Modelled from the spec: a caller arriving while a refresh is in
flight blocks on it (no new outbound request); a caller arriving with no
refresh in flight issues the one outbound request and starts the
refresh; completion delivers the new snapshot to every blocked caller
and clears the guard. -/
def guardStep (s : GuardState) : GuardEvent → GuardState
  | GuardEvent.call =>
    if s.inFlight then
      { s with pending := s.pending + 1 }
    else
      { s with inFlight := true
               pending := s.pending + 1
               requestsIssued := s.requestsIssued + 1 }
  | GuardEvent.complete =>
    if s.inFlight then
      { s with inFlight := false
               pending := 0
               snapshotGen := s.snapshotGen + 1
               delivered :=
                 s.delivered ++ List.replicate s.pending (s.snapshotGen + 1) }
    else s

/-- Run a sequence of guard events from a state. -/
def guardRun (s : GuardState) : List GuardEvent → GuardState
  | [] => s
  | e :: rest => guardRun (guardStep s e) rest

/-- Modelled from the spec: the bootstrap host-list provider — when a
coordination-service (ZooKeeper) address is supplied the candidate
broker addresses come from a lookup against that service; otherwise from
a static parse of the comma-separated host list. -/
def resolveSeedHosts (coordLookup : String → List String)
    (hosts : String) (zk : Option String) : List String :=
  match zk with
  | some z => coordLookup z
  | none => hosts.splitOn ","

/-- C1: `KafkaClient.update_cluster` (client.py lines 96-102) invokes the
cluster coordinator's `update` exactly once, with no topic argument, and
performs no other action. -/
theorem update_cluster_is_pure_passthrough :
    KafkaClient.update_cluster = [Action.clusterUpdate none] ∧
    KafkaClient.update_cluster.length = 1 :=
  ⟨rfl, rfl⟩

/-- C2: for every pair of arguments with `zookeeper_hosts` not None, the
seed description recorded by `__init__` (client.py line 71) is the
coordination-service address, and the bootstrap host-list provider
resolves the forwarded configuration through a lookup against that
service rather than the static host:port list. -/
theorem zookeeper_hosts_take_precedence (a : InitArgs) (z : String)
    (h : Heap) (coordLookup : String → List String) :
    ((KafkaClient.init { a with zookeeper_hosts := some z } h).1)._seed_hosts
        = z ∧
    resolveSeedHosts coordLookup
        ((KafkaClient.init { a with zookeeper_hosts := some z } h).1).cluster.config.hosts
        ((KafkaClient.init { a with zookeeper_hosts := some z } h).1).cluster.config.zookeeper_hosts
      = coordLookup z :=
  ⟨rfl, rfl⟩

/-- C3: a client constructed with the default options carries the
documented defaults: `socket_timeout_ms = 30000`,
`offsets_channel_socket_timeout_ms = 10000`, and
`exclude_internal_topics = true`. -/
theorem default_configuration_values (h : Heap) :
    defaultInitArgs.socket_timeout_ms = 30000 ∧
    defaultInitArgs.offsets_channel_socket_timeout_ms = 10000 ∧
    defaultInitArgs.exclude_internal_topics = true ∧
    (KafkaClient.init defaultInitArgs h).1._socket_timeout_ms = 30000 ∧
    (KafkaClient.init defaultInitArgs h).1._offsets_channel_socket_timeout_ms
        = 10000 ∧
    (KafkaClient.init defaultInitArgs h).1.cluster.config.exclude_internal_topics
        = true :=
  ⟨rfl, rfl, rfl, rfl, rfl, rfl⟩

/-- C4: for every choice of constructor arguments, `__init__` constructs
exactly one `Cluster`, it is the one stored in `self.cluster`, and the
configuration values (seed hosts, both timeouts, internal-topic flag,
source address, zookeeper hosts) are forwarded to it unchanged. -/
theorem init_constructs_one_cluster_unchanged (a : InitArgs) (h : Heap) :
    (KafkaClient.init a h).2.2.length = 1 ∧
    (KafkaClient.init a h).2.2 = [(KafkaClient.init a h).1.cluster] ∧
    (KafkaClient.init a h).1.cluster.config =
      { hosts := a.hosts
        socket_timeout_ms := a.socket_timeout_ms
        offsets_channel_socket_timeout_ms :=
          a.offsets_channel_socket_timeout_ms
        exclude_internal_topics := a.exclude_internal_topics
        source_address := a.source_address
        zookeeper_hosts := a.zookeeper_hosts } :=
  ⟨rfl, rfl, rfl⟩

/-- C5: after construction the facade's `brokers` and `topics`
attributes are the same registry references held by its cluster, so a
later write through the cluster's reference (a reconciliation) is
observable by reading through the facade's attribute, with no
reassignment of the attribute. -/
theorem brokers_topics_are_aliases (a : InitArgs) (h : Heap)
    (v : List Broker) (w : TopicMap) (h' : Heap) :
    (KafkaClient.init a h).1.brokersRef
        = (KafkaClient.init a h).1.cluster.brokersRef ∧
    (KafkaClient.init a h).1.topicsRef
        = (KafkaClient.init a h).1.cluster.topicsRef ∧
    (h'.writeBrokers (KafkaClient.init a h).1.cluster.brokersRef v).brokerCells
        ((KafkaClient.init a h).1.brokersRef) = v ∧
    (h'.writeTopics (KafkaClient.init a h).1.cluster.topicsRef w).topicCells
        ((KafkaClient.init a h).1.topicsRef) = w := by
  refine ⟨rfl, rfl, ?_, ?_⟩ <;>
    · simp only [Heap.writeBrokers, Heap.writeTopics]
      exact if_pos rfl

/-- A refresh that fails on every candidate address yields no metadata. -/
theorem firstSuccess_all_fail (net : String → Option Metadata) :
    ∀ l : List String, (∀ a ∈ l, net a = none) → firstSuccess net l = none
  | [], _ => rfl
  | a :: rest, h => by
    unfold firstSuccess
    rw [h a (List.mem_cons_self a rest)]
    exact firstSuccess_all_fail net rest fun x hx => h x (List.mem_cons_of_mem a hx)

/-- C6: when every known broker and every seed candidate fails the
metadata request, `update` fails with `ClusterUnreachable` and the prior
topology (broker and topic registries) is left exactly as it was. -/
theorem update_total_failure_atomic (net : String → Option Metadata)
    (st : ClusterState) (hall : ∀ a ∈ candidates st, net a = none) :
    Cluster.update net st = (st, some ClusterError.clusterUnreachable) := by
  unfold Cluster.update
  rw [firstSuccess_all_fail net (candidates st) hall]

/-- Witness for C6 at a concrete cached topology and a dead network. -/
theorem update_total_failure_atomic_witness :
    Cluster.update (fun _ => none)
        ⟨[⟨0, "b0", 9092, 5⟩], [("t0", [(0, 0)])], ["seed0"]⟩
      = (⟨[⟨0, "b0", 9092, 5⟩], [("t0", [(0, 0)])], ["seed0"]⟩,
          some ClusterError.clusterUnreachable) :=
  update_total_failure_atomic (fun _ => none)
    ⟨[⟨0, "b0", 9092, 5⟩], [("t0", [(0, 0)])], ["seed0"]⟩
    (fun _ _ => rfl)

/-- While a refresh is in flight, arriving callers only join the wait:
no state change besides the blocked-caller count. -/
theorem guardRun_calls_while_inflight (n : Nat) :
    ∀ s : GuardState, s.inFlight = true →
      guardRun s (List.replicate n GuardEvent.call)
        = { s with pending := s.pending + n } := by
  induction n with
  | zero => intro s _; rfl
  | succ k ih =>
    intro s hs
    have hstep : guardStep s GuardEvent.call = { s with pending := s.pending + 1 } := by
      unfold guardStep
      rw [hs]
      simp
    have harith : s.pending + 1 + k = s.pending + (k + 1) := by omega
    calc guardRun s (List.replicate (k + 1) GuardEvent.call)
        = guardRun (guardStep s GuardEvent.call) (List.replicate k GuardEvent.call) := by
          rw [List.replicate_succ]
          rfl
      _ = { s with pending := s.pending + 1 + k } := by
          rw [hstep, ih { s with pending := s.pending + 1 } hs]
      _ = { s with pending := s.pending + (k + 1) } := by rw [harith]

/-- Running events splits across append. -/
theorem guardRun_append (l1 l2 : List GuardEvent) :
    ∀ s : GuardState, guardRun s (l1 ++ l2) = guardRun (guardRun s l1) l2 := by
  induction l1 with
  | nil => intro s; rfl
  | cons e rest ih =>
    intro s
    show guardRun (guardStep s e) (rest ++ l2)
        = guardRun (guardRun (guardStep s e) rest) l2
    exact ih (guardStep s e)

/-- C7: one caller starts a refresh and n further callers invoke
`update` while it is in flight; over the whole episode exactly one
outbound metadata request is issued, and when the refresh completes all
n + 1 callers observe the one resulting snapshot. -/
theorem concurrent_updates_coalesce (s : GuardState) (n : Nat)
    (hflight : s.inFlight = false) (hpend : s.pending = 0) :
    (guardRun s (GuardEvent.call ::
        (List.replicate n GuardEvent.call ++ [GuardEvent.complete]))).requestsIssued
      = s.requestsIssued + 1 ∧
    (guardRun s (GuardEvent.call ::
        (List.replicate n GuardEvent.call ++ [GuardEvent.complete]))).delivered
      = s.delivered ++ List.replicate (n + 1) (s.snapshotGen + 1) ∧
    (guardRun s (GuardEvent.call ::
        (List.replicate n GuardEvent.call ++ [GuardEvent.complete]))).inFlight
      = false := by
  have hstart : guardStep s GuardEvent.call
      = { s with inFlight := true, pending := s.pending + 1,
                 requestsIssued := s.requestsIssued + 1 } := by
    unfold guardStep
    rw [hflight]
    simp
  have hrun : guardRun s (GuardEvent.call ::
      (List.replicate n GuardEvent.call ++ [GuardEvent.complete]))
      = guardStep (guardRun (guardStep s GuardEvent.call)
          (List.replicate n GuardEvent.call)) GuardEvent.complete := by
    show guardRun (guardStep s GuardEvent.call)
        (List.replicate n GuardEvent.call ++ [GuardEvent.complete]) = _
    rw [guardRun_append]
    rfl
  rw [hrun, hstart,
    guardRun_calls_while_inflight n
      { s with inFlight := true, pending := s.pending + 1,
               requestsIssued := s.requestsIssued + 1 } rfl]
  unfold guardStep
  simp [hpend]
  omega

/-- Witness for C7: a fresh guard, one initiating caller and three
concurrent callers, one request issued, four identical deliveries. -/
theorem concurrent_updates_coalesce_witness :
    (guardRun ⟨false, 0, 0, 0, []⟩ (GuardEvent.call ::
        (List.replicate 3 GuardEvent.call ++ [GuardEvent.complete]))).requestsIssued
      = 0 + 1 ∧
    (guardRun ⟨false, 0, 0, 0, []⟩ (GuardEvent.call ::
        (List.replicate 3 GuardEvent.call ++ [GuardEvent.complete]))).delivered
      = [] ++ List.replicate (3 + 1) (0 + 1) ∧
    (guardRun ⟨false, 0, 0, 0, []⟩ (GuardEvent.call ::
        (List.replicate 3 GuardEvent.call ++ [GuardEvent.complete]))).inFlight
      = false :=
  concurrent_updates_coalesce ⟨false, 0, 0, 0, []⟩ 3 rfl rfl

/-- C9: when the cached leader lookup has a gap (unknown topic or
partition, or leader id absent from the Broker Registry), `leader_for`
performs exactly one `update`, retries the lookup once against the
refreshed state, and either returns the current leader or fails with
`PartitionNotFound` — never a second refresh within the same call. -/
theorem leader_for_single_refresh (net : String → Option Metadata)
    (st : ClusterState) (t : String) (p : Nat)
    (hmiss : lookupLeader st t p = none) :
    (leader_for net st t p).2.2 = 1 ∧
    ((∃ b, lookupLeader (Cluster.update net st).1 t p = some b ∧
        (leader_for net st t p).1 = Except.ok b) ∨
      (lookupLeader (Cluster.update net st).1 t p = none ∧
        (leader_for net st t p).1
          = Except.error LeaderError.partitionNotFound)) := by
  cases hl : lookupLeader (Cluster.update net st).1 t p with
  | some b =>
    refine ⟨?_, Or.inl ⟨b, ?_, ?_⟩⟩ <;> simp [leader_for, hmiss, hl]
  | none =>
    refine ⟨?_, Or.inr ⟨?_, ?_⟩⟩ <;> simp [leader_for, hmiss, hl]

/-- Witness for C9: an empty cache, a network answering with a topology
that names broker 1 as leader of partition 0 of topic t. -/
theorem leader_for_single_refresh_witness :
    (leader_for (fun _ => some ⟨[(1, "a", 9092)], [("t", [(0, 1)])]⟩)
        ⟨[], [], ["s"]⟩ "t" 0).2.2 = 1 ∧
    ((∃ b, lookupLeader
          (Cluster.update (fun _ => some ⟨[(1, "a", 9092)], [("t", [(0, 1)])]⟩)
            ⟨[], [], ["s"]⟩).1 "t" 0 = some b ∧
        (leader_for (fun _ => some ⟨[(1, "a", 9092)], [("t", [(0, 1)])]⟩)
            ⟨[], [], ["s"]⟩ "t" 0).1 = Except.ok b) ∨
      (lookupLeader
          (Cluster.update (fun _ => some ⟨[(1, "a", 9092)], [("t", [(0, 1)])]⟩)
            ⟨[], [], ["s"]⟩).1 "t" 0 = none ∧
        (leader_for (fun _ => some ⟨[(1, "a", 9092)], [("t", [(0, 1)])]⟩)
            ⟨[], [], ["s"]⟩ "t" 0).1
          = Except.error LeaderError.partitionNotFound)) :=
  leader_for_single_refresh (fun _ => some ⟨[(1, "a", 9092)], [("t", [(0, 1)])]⟩)
    ⟨[], [], ["s"]⟩ "t" 0 rfl

/-- Every handle produced by `mkNew` carries the id of some broker entry
of the list it was built from. -/
theorem mem_mkNew_id : ∀ (l : List MetaBroker) (f : Nat) (b : Broker),
    b ∈ mkNew f l → ∃ n ∈ l, b.id = n.1 := by
  intro l
  induction l with
  | nil =>
    intro f b hb
    simp [mkNew] at hb
  | cons n rest ih =>
    intro f b hb
    simp only [mkNew, List.mem_cons] at hb
    rcases hb with hb | hb
    · exact ⟨n, List.mem_cons_self n rest, by rw [hb]⟩
    · obtain ⟨x, hx, hid⟩ := ih (f + 1) b hb
      exact ⟨x, List.mem_cons_of_mem n hx, hid⟩

/-- Every broker entry handed to `mkNew` yields a handle with its id. -/
theorem exists_mkNew_of_mem : ∀ (l : List MetaBroker) (f : Nat)
    (n : MetaBroker), n ∈ l → ∃ b ∈ mkNew f l, b.id = n.1 := by
  intro l
  induction l with
  | nil =>
    intro f n hn
    simp at hn
  | cons m rest ih =>
    intro f n hn
    rcases List.mem_cons.mp hn with h | h
    · exact ⟨⟨m.1, m.2.1, m.2.2, f⟩, List.mem_cons_self _ _, by rw [h]⟩
    · obtain ⟨b, hb, hid⟩ := ih (f + 1) n h
      exact ⟨b, List.mem_cons_of_mem _ hb, hid⟩

/-- After a reconciliation every tracked handle's id occurs in the
metadata broker list: vanished brokers are gone. -/
theorem reconcile_ids_in_new (reg : List Broker) (new : List MetaBroker)
    (f : Nat) :
    ∀ b ∈ reconcile reg new f, new.any (fun n => n.1 == b.id) = true := by
  intro b hb
  rcases List.mem_append.mp hb with h | h
  · exact (List.mem_filter.mp h).2
  · obtain ⟨n, hn, hid⟩ := mem_mkNew_id _ _ _ h
    have hn' : n ∈ new := List.mem_of_mem_filter hn
    refine List.any_eq_true.mpr ⟨n, hn', ?_⟩
    rw [hid]
    simp

/-- After a reconciliation every id of the metadata broker list is
tracked: new brokers are registered. -/
theorem reconcile_tracks_new (reg : List Broker) (new : List MetaBroker)
    (f : Nat) :
    ∀ n ∈ new, tracked (reconcile reg new f) n.1 = true := by
  intro n hn
  unfold tracked
  by_cases htr : tracked reg n.1 = true
  · obtain ⟨b, hb, hbid⟩ := List.any_eq_true.mp htr
    have hbid' : b.id = n.1 := eq_of_beq hbid
    have hkeep : b ∈ reg.filter (fun b => new.any (fun m => m.1 == b.id)) := by
      refine List.mem_filter.mpr ⟨hb, ?_⟩
      refine List.any_eq_true.mpr ⟨n, hn, ?_⟩
      rw [hbid']
      simp
    refine List.any_eq_true.mpr ⟨b, List.mem_append.mpr (Or.inl hkeep), ?_⟩
    rw [hbid']
    simp
  · have htr' : tracked reg n.1 = false := by
      cases h : tracked reg n.1
      · rfl
      · exact absurd h htr
    have hnf : n ∈ new.filter (fun m => !(tracked reg m.1)) := by
      refine List.mem_filter.mpr ⟨hn, ?_⟩
      rw [htr']
      rfl
    obtain ⟨b, hb, hid⟩ := exists_mkNew_of_mem _ f n hnf
    refine List.any_eq_true.mpr ⟨b, List.mem_append.mpr (Or.inr hb), ?_⟩
    rw [hid]
    simp

/-- Reconciling a registry twice against the same metadata broker list
is the same as reconciling once: the second pass removes nothing, adds
nothing, and keeps every existing handle (connection token included). -/
theorem reconcile_idem (reg : List Broker) (new : List MetaBroker)
    (f g : Nat) :
    reconcile (reconcile reg new f) new g = reconcile reg new f := by
  have hkeep :
      (reconcile reg new f).filter (fun b => new.any (fun n => n.1 == b.id))
        = reconcile reg new f :=
    List.filter_eq_self.mpr fun b hb => by
      rw [reconcile_ids_in_new reg new f b hb]
  have hnone :
      new.filter (fun n => !(tracked (reconcile reg new f) n.1)) = [] :=
    List.filter_eq_nil_iff.mpr fun n hn => by
      simp [reconcile_tracks_new reg new f n hn]
  calc reconcile (reconcile reg new f) new g
      = (reconcile reg new f).filter (fun b => new.any (fun n => n.1 == b.id))
          ++ mkNew g (new.filter
              (fun n => !(tracked (reconcile reg new f) n.1))) := rfl
    _ = reconcile reg new f ++ mkNew g [] := by rw [hkeep, hnone]
    _ = reconcile reg new f := by simp [mkNew]

/-- A refresh that obtains a metadata response applies it. -/
theorem update_success_eq (net : String → Option Metadata)
    (s : ClusterState) (m : Metadata)
    (h : firstSuccess net (candidates s) = some m) :
    Cluster.update net s = (applyMetadata m s, none) := by
  unfold Cluster.update
  rw [h]

/-- C8: calling `update` twice in succession with an unchanged metadata
response leaves the cluster state after the second call identical to the
state after the first — in particular the broker handles and their
connection tokens are untouched (no unnecessary reconnects). -/
theorem update_idempotent_on_unchanged_response
    (net : String → Option Metadata) (st : ClusterState) (m : Metadata)
    (h1 : firstSuccess net (candidates st) = some m)
    (h2 : firstSuccess net (candidates (Cluster.update net st).1) = some m) :
    (Cluster.update net (Cluster.update net st).1).1
        = (Cluster.update net st).1 ∧
    ((Cluster.update net (Cluster.update net st).1).1).brokers
        = ((Cluster.update net st).1).brokers := by
  have e1 := update_success_eq net st m h1
  have e2 := update_success_eq net (Cluster.update net st).1 m h2
  have hmain : (Cluster.update net (Cluster.update net st).1).1
      = (Cluster.update net st).1 := by
    rw [e2, e1]
    show applyMetadata m (applyMetadata m st) = applyMetadata m st
    unfold applyMetadata
    simp [reconcile_idem]
  exact ⟨hmain, by rw [hmain]⟩

/-- Witness for C8: empty cache, a constant network response naming one
broker; the second update changes nothing. -/
theorem update_idempotent_witness :
    (Cluster.update (fun _ => some ⟨[(1, "a", 9092)], [("t", [(0, 1)])]⟩)
        (Cluster.update (fun _ => some ⟨[(1, "a", 9092)], [("t", [(0, 1)])]⟩)
          ⟨[], [], ["s"]⟩).1).1
      = (Cluster.update (fun _ => some ⟨[(1, "a", 9092)], [("t", [(0, 1)])]⟩)
          ⟨[], [], ["s"]⟩).1 ∧
    ((Cluster.update (fun _ => some ⟨[(1, "a", 9092)], [("t", [(0, 1)])]⟩)
        (Cluster.update (fun _ => some ⟨[(1, "a", 9092)], [("t", [(0, 1)])]⟩)
          ⟨[], [], ["s"]⟩).1).1).brokers
      = ((Cluster.update (fun _ => some ⟨[(1, "a", 9092)], [("t", [(0, 1)])]⟩)
          ⟨[], [], ["s"]⟩).1).brokers :=
  update_idempotent_on_unchanged_response
    (fun _ => some ⟨[(1, "a", 9092)], [("t", [(0, 1)])]⟩)
    ⟨[], [], ["s"]⟩ ⟨[(1, "a", 9092)], [("t", [(0, 1)])]⟩ rfl rfl

/-- C10: constructing a `KafkaClient` with no arguments is accepted and
uses the seed host list `'127.0.0.1:9092'` with no coordination-service
address. -/
theorem no_argument_construction_defaults (h : Heap) :
    (KafkaClient.init defaultInitArgs h).1._seed_hosts = "127.0.0.1:9092" ∧
    (KafkaClient.init defaultInitArgs h).1.cluster.config.hosts
        = "127.0.0.1:9092" ∧
    (KafkaClient.init defaultInitArgs h).1.cluster.config.zookeeper_hosts
        = none :=
  ⟨rfl, rfl, rfl⟩

end Pykafka
